import Mathlib

/-
Verification development for the SkillBridge roadmap generator
(backend/app/api/routes/roadmap.py, generate_roadmap) together with the
pydantic schema LearningStep (backend/app/api/schemas.py).

Modelling conventions:
* Python strings are Lean Strings; str.lower is modelled for ASCII letters
  (pyLower), matching the behaviour on the catalog data in scope.
* Python set objects are modelled by duplicate-free lists; their iteration
  order is implementation defined in CPython (hash randomized), so functions
  consuming a set take an explicit enumeration list standing for whatever
  order iteration produced.
* json.loads is an external library call; it is passed in as an abstract
  decoder of type String -> Option Json with no assumptions.
* The database query is modelled by a catalog of job postings paired with
  their cosine distance to the (externally computed) query embedding.
-/

/-- ASCII lower-casing of one character, the behaviour of Python str.lower
on the ASCII range. -/
def pyLowerChar (c : Char) : Char :=
  if 65 ≤ c.toNat ∧ c.toNat ≤ 90 then Char.ofNat (c.toNat + 32) else c

/-- Lower-casing of a string, modelling Python str.lower (ASCII range). -/
def pyLower (s : String) : String :=
  ⟨s.data.map pyLowerChar⟩

/-- Whitespace trimming, modelling Python str.strip used by the spec
normalization description. -/
def pyTrim (s : String) : String :=
  ⟨((s.data.dropWhile Char.isWhitespace).reverse.dropWhile Char.isWhitespace).reverse⟩

/-- Helper for pySplit: accumulates the current token (reversed) and cuts at
whitespace, dropping empty tokens, exactly as Python str.split() with no
arguments does. -/
def pySplitAux : List Char → List Char → List String
  | [], acc => if acc.isEmpty then [] else [⟨acc.reverse⟩]
  | c :: rest, acc =>
    if c.isWhitespace then
      if acc.isEmpty then pySplitAux rest [] else ⟨acc.reverse⟩ :: pySplitAux rest []
    else
      pySplitAux rest (c :: acc)

/-- Python str.split() with no arguments: split on whitespace runs and drop
empty tokens. Used at roadmap.py lines 167 and 169. -/
def pySplit (s : String) : List String :=
  pySplitAux s.data []

/-- Python str.isdigit on the ASCII range: nonempty and all characters are
decimal digits. Used at roadmap.py line 169. -/
def isDigitStr (s : String) : Bool :=
  !s.data.isEmpty && s.data.all Char.isDigit

/-- Decimal value of a digit string, modelling Python int() on the strings
accepted by isDigitStr. Used at roadmap.py line 167. -/
def digitVal (s : String) : Nat :=
  s.data.foldl (fun n c => n * 10 + (c.toNat - 48)) 0

/-- Comma-space join, modelling ", ".join in the fallback description at
roadmap.py line 157. -/
def joinComma (l : List String) : String :=
  String.intercalate ", " l

/-- Lexicographic comparison of character lists by code point, the order
Python string comparison uses. -/
def lexLeBool : List Char → List Char → Bool
  | [], _ => true
  | _ :: _, [] => false
  | a :: as, b :: bs =>
    if a.toNat < b.toNat then true
    else if b.toNat < a.toNat then false
    else lexLeBool as bs

/-- Checks that a list of strings is sorted lexicographically by normalized
(lower-cased) form, the order the spec asks for in section 4.2. -/
def isSortedByNorm : List String → Bool
  | [] => true
  | [_] => true
  | a :: b :: t => lexLeBool (pyLower a).data (pyLower b).data && isSortedByNorm (b :: t)

/-- Minimal JSON value model for the decoded generator response: exactly the
shapes the parsing code at roadmap.py lines 144-149 can receive. -/
inductive Json where
  | str (s : String)
  | num (n : Int)
  | arr (items : List Json)
  | obj (fields : List (String × Json))
  | null

/-- Embedding of the pydantic schema LearningStep (schemas.py lines 76-84):
step, title, description and estimated_duration are required; resources and
skills_gained default to the empty list. -/
structure LearningStep where
  step : Int
  title : String
  description : String
  estimated_duration : String
  resources : List String
  skills_gained : List String
deriving DecidableEq

/-- Extraction of a string element list from a decoded JSON array, the
validation pydantic applies to the resources and skills_gained fields. -/
def strList : List Json → Except String (List String)
  | [] => Except.ok []
  | Json.str s :: rest =>
    match strList rest with
    | Except.ok l => Except.ok (s :: l)
    | Except.error e => Except.error e
  | _ :: _ => Except.error "ValidationError: list"

/-- Optional list-of-strings field: absent means the default empty list,
present means it must validate as a list of strings. -/
def optStrList (key : String) (fs : List (String × Json)) : Except String (List String) :=
  match List.lookup key fs with
  | none => Except.ok []
  | some (Json.arr xs) => strList xs
  | some _ => Except.error ("ValidationError: " ++ key)

/-- Embedding of LearningStep(**step) at roadmap.py line 148: pydantic
validation of one decoded step object. A missing or mistyped required field
raises ValidationError, which the surrounding code does not catch. -/
def mkLearningStep (fs : List (String × Json)) : Except String LearningStep :=
  match List.lookup "step" fs with
  | some (Json.num n) =>
    match List.lookup "title" fs with
    | some (Json.str t) =>
      match List.lookup "description" fs with
      | some (Json.str d) =>
        match List.lookup "estimated_duration" fs with
        | some (Json.str dur) =>
          match optStrList "resources" fs with
          | Except.ok res =>
            match optStrList "skills_gained" fs with
            | Except.ok sg =>
              Except.ok { step := n, title := t, description := d,
                          estimated_duration := dur, resources := res,
                          skills_gained := sg }
            | Except.error e => Except.error e
          | Except.error e => Except.error e
        | _ => Except.error "ValidationError: estimated_duration"
      | _ => Except.error "ValidationError: description"
    | _ => Except.error "ValidationError: title"
  | _ => Except.error "ValidationError: step"

/-- Validation of the decoded array element by element, modelling the list
comprehension at roadmap.py lines 148-149: iteration is left to right and
the first exception aborts. A non-object element raises TypeError. -/
def stepsOfList : List Json → Except String (List LearningStep)
  | [] => Except.ok []
  | Json.obj fs :: rest =>
    match mkLearningStep fs with
    | Except.error e => Except.error e
    | Except.ok st =>
      match stepsOfList rest with
      | Except.error e => Except.error e
      | Except.ok sts => Except.ok (st :: sts)
  | _ :: _ => Except.error "TypeError"

/-- The decoded value must be an array for the step comprehension to
succeed; any other shape raises TypeError when iterated or unpacked. -/
def stepsOfJson : Json → Except String (List LearningStep)
  | Json.arr items => stepsOfList items
  | _ => Except.error "TypeError"

/-- Embedding of the fallback LearningStep built at roadmap.py lines
153-162 when json.loads raises JSONDecodeError. -/
def fallbackStep (gaps : List String) : LearningStep :=
  { step := 1
    title := "Foundation Building"
    description := "Start by learning the core skills: " ++ joinComma (gaps.take 3)
    estimated_duration := "1-2 months"
    resources := ["Online courses", "Documentation", "Practice projects"]
    skills_gained := gaps.take 3 }

/-- Embedding of re.search of the pattern matching a bracketed span with
DOTALL at roadmap.py line 142. The regex is greedy: the match runs from the
first opening bracket to the last closing bracket of the whole text, when
the first opening bracket occurs before the last closing bracket. -/
def codeSpanL (l : List Char) : Option (List Char) :=
  let rest := l.dropWhile (fun c => c != '[')
  let cut := (rest.reverse.dropWhile (fun c => c != ']')).reverse
  if cut.isEmpty then none else some cut

/-- The text handed to json.loads at roadmap.py lines 143-146: the regex
match when one exists, the whole response otherwise. -/
def chosenText (s : String) : String :=
  match codeSpanL s.data with
  | some l => ⟨l⟩
  | none => s

/-- Modelled from the spec: scanning helper for the first balanced bracketed
span, tracking bracket depth from the first opening bracket. This definition
follows the words of spec section 4.4 (extraction must locate the first
balanced bracket span) and exists only for comparison with codeSpanL. -/
def balScan : List Char → Nat → List Char → Option (List Char)
  | [], _, _ => none
  | c :: rest, d, acc =>
    let acc2 := c :: acc
    let d2 := if c = '[' then d + 1 else if c = ']' then d - 1 else d
    if c = ']' && d2 = 0 then some acc2.reverse else balScan rest d2 acc2

/-- Modelled from the spec: the first balanced bracketed span of a text,
per spec section 4.4. For comparison with the source extraction codeSpanL. -/
def firstBalancedSpanL (l : List Char) : Option (List Char) :=
  balScan (l.dropWhile (fun c => c != '[')) 0 []

/-- Per-step contribution to the timeline sum at roadmap.py lines 165-171:
the leading whitespace token of the duration, its integer value when it is a
digit string and 0 otherwise; no leading token at all is an IndexError. -/
def durationContribution (d : String) : Option Nat :=
  match (pySplit d).head? with
  | none => none
  | some t => some (if isDigitStr t then digitVal t else 0)

/-- Total duration sum over the learning path, modelling the comprehension
at roadmap.py lines 165-171; any step without a leading token aborts the
whole computation with IndexError. -/
def totalDuration : List LearningStep → Option Nat
  | [] => some 0
  | st :: rest =>
    match durationContribution st.estimated_duration with
    | none => none
    | some k =>
      match totalDuration rest with
      | none => none
      | some n => some (k + n)

/-- Rendering of the timeline string at roadmap.py line 172. -/
def renderTimeline (n : Nat) : String :=
  if n < 52 then toString n ++ " weeks" else toString (n / 4) ++ " months"

/-- The estimated timeline of a learning path, or none when the sum raises
IndexError (roadmap.py lines 164-172). -/
def aggregateTimeline (steps : List LearningStep) : Option String :=
  (totalDuration steps).map renderTimeline

/-- Restatement of the timeline formula in the words of the claim, for
comparison: each step contributes the value of its leading integer token and
0 otherwise (a step with no token is read as contributing 0 here). -/
def specLeadContribution (d : String) : Nat :=
  match (pySplit d).head? with
  | none => 0
  | some t => if isDigitStr t then digitVal t else 0

/-- Embedding of the gap comprehension at roadmap.py lines 91-95. The first
argument enumerates all_required_skills in whatever order Python set
iteration produced (implementation defined); the second is the lower-cased
current skill set. A skill stays in the gap when its lower-cased form is not
a known skill. -/
def skillGaps (requiredEnum : List String) (knownL : List String) : List String :=
  requiredEnum.filter (fun s => !(decide (pyLower s ∈ knownL)))

/-- Embedding of the recommended set difference at roadmap.py line 96:
all_preferred_skills - current_skills_set removes the raw preferred strings
that literally occur in the lower-cased known set. -/
def recommendedSkills (preferredEnum : List String) (knownL : List String) : List String :=
  preferredEnum.filter (fun s => !(decide (s ∈ knownL)))

/-- Duplicate-free accumulation of skill lists in first-insertion order,
modelling the set.update loop at roadmap.py lines 79-86. Membership and
cardinality agree with the Python set; the order stands for one possible
set-iteration order. -/
def pyUnion (ls : List (List String)) : List String :=
  ls.flatten.foldl (fun acc s => if s ∈ acc then acc else acc ++ [s]) []

/-- Embedding of the confidence score at roadmap.py lines 174-179:
the fraction of the aggregated required skills (as stored, not normalized)
that occur literally in the lower-cased current skill set; 0.0 when no
required skills were aggregated. -/
def confidence (knownL : List String) (required : List String) : ℚ :=
  if required.isEmpty then 0
  else ((required.filter (fun s => decide (s ∈ knownL))).length : ℚ) / (required.length : ℚ)

/-- Modelled from the spec: normalization by trimming, lower-casing and
dropping empties (spec section 4.2), as a finite set. For comparison with
the source computations, which lower-case only the known skills. -/
def specNormalize (l : List String) : Finset String :=
  ((l.map (fun s => pyLower (pyTrim s))).filter (fun s => !s.isEmpty)).toFinset

/-- Modelled from the spec: the confidence formula of spec section 4.3 over
normalized sets, for comparison with the source confidence. -/
def specConfidence (known : List String) (required : List String) : ℚ :=
  if specNormalize required = ∅ then 0
  else ((specNormalize known ∩ specNormalize required).card : ℚ) / ((specNormalize required).card : ℚ)

/-- Fuel-driven SQL LIKE matcher over characters, case-insensitive (ILIKE).
The percent wildcard matches any run of characters, the underscore wildcard
matches any single character, any other pattern character matches itself up
to case. Fuel makes the recursion structural; likeMatch supplies enough. -/
def likeMatchF : Nat → List Char → List Char → Bool
  | 0, _, _ => false
  | _ + 1, [], [] => true
  | _ + 1, [], _ :: _ => false
  | fuel + 1, '%' :: p, [] => likeMatchF fuel p []
  | fuel + 1, '%' :: p, c :: s => likeMatchF fuel p (c :: s) || likeMatchF fuel ('%' :: p) s
  | _ + 1, '_' :: _, [] => false
  | fuel + 1, '_' :: p, _ :: s => likeMatchF fuel p s
  | _ + 1, _ :: _, [] => false
  | fuel + 1, a :: p, d :: s => (pyLowerChar a == pyLowerChar d) && likeMatchF fuel p s

/-- Case-insensitive LIKE pattern match, the semantics of the SQL ILIKE
operator used at roadmap.py line 50 (backslash escapes are outside the
modelled pattern alphabet; the route builds its pattern from the raw target
role). -/
def likeMatch (p s : List Char) : Bool :=
  likeMatchF (p.length + s.length + 1) p s

/-- Embedding of the title filter at roadmap.py line 50: the title matches
the ILIKE pattern formed by wrapping the target role in percent
wildcards. -/
def titleMatches (role title : String) : Bool :=
  likeMatch ('%' :: (role.data ++ ['%'])) title.data

/-- Modelled from the spec: case-insensitive substring containment, the
reading of the title filter in the claim, for comparison with the ILIKE
semantics of titleMatches. -/
def containsCI (needle hay : String) : Bool :=
  decide ((needle.data.map pyLowerChar) <:+: (hay.data.map pyLowerChar))

/-- Catalog entry in scope for the roadmap route: title and the two skill
lists (db/models.py JobPosting, fields used at roadmap.py lines 50 and
82-86). -/
structure JobPosting where
  title : String
  required_skills : List String
  preferred_skills : List String
deriving DecidableEq

/-- Insertion into a list sorted by ascending distance, used to model the
ORDER BY distance of the similarity queries. -/
def insertByDist (x : JobPosting × ℚ) : List (JobPosting × ℚ) → List (JobPosting × ℚ)
  | [] => [x]
  | y :: ys => if x.2 ≤ y.2 then x :: y :: ys else y :: insertByDist x ys

/-- Sorting a catalog slice by ascending cosine distance, modelling ORDER BY
at roadmap.py lines 51 and 67. -/
def sortByDistance (l : List (JobPosting × ℚ)) : List (JobPosting × ℚ) :=
  l.foldr insertByDist []

/-- Failure modes of the roadmap route: the 404 raised at roadmap.py lines
72-76 when no job postings exist, and the catch-all 500 of lines 215-228
tagged with the kind of uncaught exception. -/
inductive RoadmapError where
  | noMatchingEntries
  | internal (msg : String)
deriving DecidableEq

/-- Embedding of the two-tier retrieval at roadmap.py lines 43-76: first the
title-filtered similarity query with limit 10, then, only when it returned
nothing, the unfiltered query with limit 5, and a 404 when that is empty
too. -/
def retrieve (catalog : List (JobPosting × ℚ)) (role : String) :
    Except RoadmapError (List (JobPosting × ℚ)) :=
  let tier1 := (sortByDistance (catalog.filter (fun e => titleMatches role e.1.title))).take 10
  if tier1.isEmpty then
    let tier2 := (sortByDistance catalog).take 5
    if tier2.isEmpty then Except.error RoadmapError.noMatchingEntries
    else Except.ok tier2
  else Except.ok tier1

/-- Modelled from the spec: the same two-tier retrieval with the first tier
filtered by case-insensitive substring containment, the reading the claim
gives of the title filter. For comparison with retrieve. -/
def retrieveSpec (catalog : List (JobPosting × ℚ)) (role : String) :
    Except RoadmapError (List (JobPosting × ℚ)) :=
  let tier1 := (sortByDistance (catalog.filter (fun e => containsCI role e.1.title))).take 10
  if tier1.isEmpty then
    let tier2 := (sortByDistance catalog).take 5
    if tier2.isEmpty then Except.error RoadmapError.noMatchingEntries
    else Except.ok tier2
  else Except.ok tier1

/-- Request schema in scope (schemas.py lines 63-73): current skills, target
role, optional target salary and experience. -/
structure RoadmapRequest where
  current_skills : List String
  target_role : String
  target_salary : Option ℚ
  experience_years : Option ℚ
deriving DecidableEq

/-- The roadmap the route returns (RoadmapResponse minus the identity and
timestamp owned by the persistence layer). -/
structure Roadmap where
  target_role : String
  current_skills : List String
  skill_gaps : List String
  recommended_skills : List String
  learning_path : List LearningStep
  estimated_timeline : String
  confidence_score : ℚ
deriving DecidableEq

/-- Outcome of the external text generator call at roadmap.py line 136:
either a raw text response, or an exception (generation failure, quota,
empty response) that propagates out of the await. -/
inductive GenOutcome where
  | ok (text : String)
  | failure
deriving DecidableEq

/-- The stages of generate_roadmap after retrieval succeeded (roadmap.py
lines 78-210): skill aggregation, gap and recommendation computation, the
prompt f-string (which raises TypeError when target_salary is absent, line
108), the generator call, parsing with fallback only on JSONDecodeError,
timeline aggregation and confidence scoring. -/
def buildWithJobs (req : RoadmapRequest) (loads : String → Option Json)
    (gen : GenOutcome) (jobs : List (JobPosting × ℚ)) : Except RoadmapError Roadmap :=
  let required := pyUnion (jobs.map (fun e => e.1.required_skills))
  let preferred := pyUnion (jobs.map (fun e => e.1.preferred_skills))
  let knownL := req.current_skills.map pyLower
  let gaps := skillGaps required knownL
  let recs := recommendedSkills preferred knownL
  match req.target_salary with
  | none => Except.error (RoadmapError.internal "TypeError")
  | some _ =>
    match gen with
    | GenOutcome.failure => Except.error (RoadmapError.internal "GenerationFailed")
    | GenOutcome.ok text =>
      match (match loads (chosenText text) with
             | none => Except.ok [fallbackStep gaps]
             | some j => stepsOfJson j) with
      | Except.error e => Except.error (RoadmapError.internal e)
      | Except.ok path =>
        match aggregateTimeline path with
        | none => Except.error (RoadmapError.internal "IndexError")
        | some timeline =>
          Except.ok { target_role := req.target_role
                      current_skills := req.current_skills
                      skill_gaps := gaps
                      recommended_skills := recs
                      learning_path := path
                      estimated_timeline := timeline
                      confidence_score := confidence knownL required }

/-- Embedding of the whole generate_roadmap endpoint (roadmap.py lines
16-228): retrieval, then the post-retrieval stages. The abstract decoder
loads stands for json.loads and the generator outcome for the external
Gemini call. -/
def buildRoadmap (catalog : List (JobPosting × ℚ)) (req : RoadmapRequest)
    (loads : String → Option Json) (gen : GenOutcome) : Except RoadmapError Roadmap :=
  match retrieve catalog req.target_role with
  | Except.error e => Except.error e
  | Except.ok jobs => buildWithJobs req loads gen jobs

/-- Concrete catalog entry used to evaluate the pipeline on closed inputs. -/
def witnessJob : JobPosting :=
  { title := "Engineer", required_skills := ["python", "go", "sql", "docker"],
    preferred_skills := ["kubernetes"] }

/-- Concrete catalog with one entry at distance zero. -/
def witnessCatalog : List (JobPosting × ℚ) := [(witnessJob, 0)]

/-- Concrete request with one known skill and a target salary present. -/
def witnessReq : RoadmapRequest :=
  { current_skills := ["python"], target_role := "Engineer",
    target_salary := some 100, experience_years := none }

/-- Decoder standing for json.loads on a response that is not valid JSON:
every decode attempt raises JSONDecodeError. -/
def loadsNoneW : String → Option Json := fun _ => none

/-- Decoder standing for json.loads on a response whose array holds one
step object that lacks the required title field. -/
def loadsMissingTitle : String → Option Json :=
  fun _ => some (Json.arr [Json.obj [("step", Json.num 1)]])

/-- Field list of a complete step object whose step field is 7. -/
def stepObj7 : List (String × Json) :=
  [("step", Json.num 7), ("title", Json.str "Learn X"),
   ("description", Json.str "D"), ("estimated_duration", Json.str "2 weeks")]

/-- Decoder standing for json.loads on a response holding one well-formed
step object labelled with step number 7. -/
def loadsStep7 : String → Option Json := fun _ => some (Json.arr [Json.obj stepObj7])

/-- Decoder standing for json.loads on a response holding one well-formed
step object whose estimated duration is the empty string. -/
def loadsEmptyDuration : String → Option Json :=
  fun _ => some (Json.arr [Json.obj
    [("step", Json.num 1), ("title", Json.str "T"),
     ("description", Json.str "D"), ("estimated_duration", Json.str "")]])

/-- Catalog entry titled ABI, matched by the ILIKE pattern of the role
written with an underscore wildcard. -/
def jobABI : JobPosting := { title := "ABI", required_skills := [], preferred_skills := [] }

/-- Catalog entry titled Zed, closer to the query than jobABI. -/
def jobZed : JobPosting := { title := "Zed", required_skills := [], preferred_skills := [] }

/-- A valid scalar value round-trips through Char.ofNat. -/
theorem char_toNat_ofNat_of_valid (n : Nat) (h : n.isValidChar) :
    (Char.ofNat n).toNat = n := by
  unfold Char.ofNat
  rw [dif_pos h]
  rfl

/-- Lower-casing a character twice is the same as once. -/
theorem pyLowerChar_idem (c : Char) : pyLowerChar (pyLowerChar c) = pyLowerChar c := by
  by_cases h : 65 ≤ c.toNat ∧ c.toNat ≤ 90
  · have h1 : pyLowerChar c = Char.ofNat (c.toNat + 32) := by
      unfold pyLowerChar
      rw [if_pos h]
    have hv : (c.toNat + 32).isValidChar := Or.inl (by omega)
    have hn : (Char.ofNat (c.toNat + 32)).toNat = c.toNat + 32 :=
      char_toNat_ofNat_of_valid _ hv
    rw [h1]
    unfold pyLowerChar
    rw [if_neg]
    rw [hn]
    omega
  · have h1 : pyLowerChar c = c := by
      unfold pyLowerChar
      rw [if_neg h]
    rw [h1, h1]

/-- Lower-casing a string twice is the same as once (normalization is
idempotent, spec section 8). -/
theorem pyLower_idem (s : String) : pyLower (pyLower s) = pyLower s := by
  have hmap : ∀ l : List Char, (l.map pyLowerChar).map pyLowerChar = l.map pyLowerChar := by
    intro l
    induction l with
    | nil => rfl
    | cons c t ih => simp [pyLowerChar_idem, ih]
  show String.mk ((s.data.map pyLowerChar).map pyLowerChar) = String.mk (s.data.map pyLowerChar)
  rw [hmap]

/-- Members of a lower-cased list are fixed points of lower-casing. -/
theorem pyLower_fixed_of_mem {x : String} {l : List String}
    (h : x ∈ l.map pyLower) : pyLower x = x := by
  obtain ⟨k, _, rfl⟩ := List.mem_map.mp h
  exact pyLower_idem k

/-- Membership is preserved by distance insertion. -/
theorem mem_insertByDist {x y : JobPosting × ℚ} {l : List (JobPosting × ℚ)} :
    x ∈ insertByDist y l ↔ x = y ∨ x ∈ l := by
  induction l with
  | nil => simp [insertByDist]
  | cons z zs ih =>
    unfold insertByDist
    by_cases h : y.2 ≤ z.2
    · rw [if_pos h]
      simp
    · rw [if_neg h]
      simp only [List.mem_cons, ih]
      tauto

/-- Membership is preserved by distance sorting. -/
theorem mem_sortByDistance {x : JobPosting × ℚ} {l : List (JobPosting × ℚ)} :
    x ∈ sortByDistance l ↔ x ∈ l := by
  induction l with
  | nil => simp [sortByDistance]
  | cons z zs ih =>
    show x ∈ insertByDist z (sortByDistance zs) ↔ _
    rw [mem_insertByDist]
    simp only [List.mem_cons, ih]

/-- Distance insertion grows the length by one. -/
theorem length_insertByDist (y : JobPosting × ℚ) (l : List (JobPosting × ℚ)) :
    (insertByDist y l).length = l.length + 1 := by
  induction l with
  | nil => rfl
  | cons z zs ih =>
    unfold insertByDist
    by_cases h : y.2 ≤ z.2
    · rw [if_pos h]
      rfl
    · rw [if_neg h]
      simp [ih]

/-- Distance sorting preserves length. -/
theorem length_sortByDistance (l : List (JobPosting × ℚ)) :
    (sortByDistance l).length = l.length := by
  induction l with
  | nil => rfl
  | cons z zs ih =>
    show (insertByDist z (sortByDistance zs)).length = _
    rw [length_insertByDist, ih]
    rfl

/-- Distance sorting yields the empty list exactly on the empty list. -/
theorem sortByDistance_eq_nil_iff {l : List (JobPosting × ℚ)} :
    sortByDistance l = [] ↔ l = [] := by
  constructor
  · intro h
    have := length_sortByDistance l
    rw [h] at this
    exact List.length_eq_zero.mp this.symm
  · intro h
    rw [h]
    rfl

/-- A duration with a leading token contributes exactly its claimed value. -/
theorem durationContribution_of_token {d : String} (h : pySplit d ≠ []) :
    durationContribution d = some (specLeadContribution d) := by
  unfold durationContribution specLeadContribution
  cases hh : (pySplit d).head? with
  | none => exact absurd (List.head?_eq_none_iff.mp hh) h
  | some t => rfl

/-- Bridging lemma: when every step has a leading duration token, the
partial sum of the source equals the total sum of the claim formula. -/
theorem totalDuration_eq_sum (steps : List LearningStep)
    (h : ∀ st ∈ steps, pySplit st.estimated_duration ≠ []) :
    totalDuration steps =
      some ((steps.map (fun st => specLeadContribution st.estimated_duration)).sum) := by
  induction steps with
  | nil => rfl
  | cons st rest ih =>
    have hst : pySplit st.estimated_duration ≠ [] := h st (List.mem_cons_self st rest)
    have hrest : ∀ s ∈ rest, pySplit s.estimated_duration ≠ [] :=
      fun s hs => h s (List.mem_cons_of_mem st hs)
    unfold totalDuration
    rw [durationContribution_of_token hst, ih hrest]
    simp

/-- A validated step object carries the step ordinal that was supplied in
its step field. -/
theorem mkLearningStep_step_field {fs : List (String × Json)} {st : LearningStep}
    (h : mkLearningStep fs = Except.ok st) :
    List.lookup "step" fs = some (Json.num st.step) := by
  unfold mkLearningStep at h
  cases h1 : List.lookup "step" fs with
  | none => rw [h1] at h; cases h
  | some v =>
    rw [h1] at h
    cases v with
    | num n =>
      cases h2 : List.lookup "title" fs with
      | none => rw [h2] at h; cases h
      | some t =>
        rw [h2] at h
        cases t with
        | str tt =>
          cases h3 : List.lookup "description" fs with
          | none => rw [h3] at h; cases h
          | some dd =>
            rw [h3] at h
            cases dd with
            | str d =>
              cases h4 : List.lookup "estimated_duration" fs with
              | none => rw [h4] at h; cases h
              | some du =>
                rw [h4] at h
                cases du with
                | str dur =>
                  cases h5 : optStrList "resources" fs with
                  | error e => rw [h5] at h; cases h
                  | ok res =>
                    rw [h5] at h
                    cases h6 : optStrList "skills_gained" fs with
                    | error e => rw [h6] at h; cases h
                    | ok sg =>
                      rw [h6] at h
                      cases h
                      rfl
                | num m => cases h
                | arr xs => cases h
                | obj ys => cases h
                | null => cases h
            | num m => cases h
            | arr xs => cases h
            | obj ys => cases h
            | null => cases h
        | num m => cases h
        | arr xs => cases h
        | obj ys => cases h
        | null => cases h
    | str s2 => cases h
    | arr xs => cases h
    | obj ys => cases h
    | null => cases h

/-- Element-wise relation between the decoded array and the validated
steps: each element is an object and its step field is kept verbatim. -/
theorem stepsOfList_step_fields {items : List Json} {steps : List LearningStep}
    (h : stepsOfList items = Except.ok steps) :
    List.Forall₂
      (fun it st => ∃ fs, it = Json.obj fs ∧ List.lookup "step" fs = some (Json.num st.step))
      items steps := by
  induction items generalizing steps with
  | nil =>
    cases h
    exact List.Forall₂.nil
  | cons j rest ih =>
    cases j with
    | obj fs =>
      unfold stepsOfList at h
      cases hmk : mkLearningStep fs with
      | error e => rw [hmk] at h; cases h
      | ok st =>
        rw [hmk] at h
        cases hrest : stepsOfList rest with
        | error e => rw [hrest] at h; cases h
        | ok sts =>
          rw [hrest] at h
          cases h
          exact List.Forall₂.cons ⟨fs, rfl, mkLearningStep_step_field hmk⟩ (ih hrest)
    | str s => cases h
    | num n => cases h
    | arr xs => cases h
    | null => cases h

/-- The title-filtered tier is nonempty when some catalog entry matches. -/
theorem tier1_ne_nil {catalog : List (JobPosting × ℚ)} {role : String}
    (h : ∃ e ∈ catalog, titleMatches role e.1.title = true) :
    ((sortByDistance (catalog.filter (fun e => titleMatches role e.1.title))).take 10).isEmpty = false := by
  obtain ⟨e, he, hm⟩ := h
  have hf : e ∈ catalog.filter (fun e => titleMatches role e.1.title) :=
    List.mem_filter.mpr ⟨he, hm⟩
  have hs : e ∈ sortByDistance (catalog.filter (fun e => titleMatches role e.1.title)) :=
    mem_sortByDistance.mpr hf
  cases hsort : sortByDistance (catalog.filter (fun e => titleMatches role e.1.title)) with
  | nil => rw [hsort] at hs; cases hs
  | cons a t => simp [List.take]

/-- The title-filtered tier is empty when no catalog entry matches. -/
theorem tier1_nil {catalog : List (JobPosting × ℚ)} {role : String}
    (h : ∀ e ∈ catalog, titleMatches role e.1.title = false) :
    ((sortByDistance (catalog.filter (fun e => titleMatches role e.1.title))).take 10) = [] := by
  have hf : catalog.filter (fun e => titleMatches role e.1.title) = [] := by
    rw [List.filter_eq_nil_iff]
    intro a ha
    simp [h a ha]
  rw [hf]
  rfl

/-- Members of the title-filtered tier satisfy the ILIKE title filter. -/
theorem tier1_members {catalog : List (JobPosting × ℚ)} {role : String} {e : JobPosting × ℚ}
    (h : e ∈ (sortByDistance (catalog.filter (fun e => titleMatches role e.1.title))).take 10) :
    titleMatches role e.1.title = true := by
  have h1 : e ∈ sortByDistance (catalog.filter (fun e => titleMatches role e.1.title)) :=
    List.take_subset 10 _ h
  have h2 := mem_sortByDistance.mp h1
  exact (List.mem_filter.mp h2).2

/-- The fallback step always aggregates to a zero-week timeline: its
duration string has the leading token 1-2, which is not a digit string. -/
theorem aggregateTimeline_fallback (gs : List String) :
    aggregateTimeline [fallbackStep gs] = some "0 weeks" := rfl

/-- After a decode failure, the post-retrieval stages return the fallback
roadmap: the fallback duration has no leading digit token, so the timeline
sums to zero and nothing after the parse can fail. -/
theorem buildWithJobs_decode_fail (req : RoadmapRequest) (loads : String → Option Json)
    (text : String) (jobs : List (JobPosting × ℚ)) (sal : ℚ)
    (hsal : req.target_salary = some sal)
    (hdec : loads (chosenText text) = none) :
    buildWithJobs req loads (GenOutcome.ok text) jobs =
      Except.ok
        { target_role := req.target_role
          current_skills := req.current_skills
          skill_gaps := skillGaps (pyUnion (jobs.map (fun e => e.1.required_skills)))
            (req.current_skills.map pyLower)
          recommended_skills := recommendedSkills (pyUnion (jobs.map (fun e => e.1.preferred_skills)))
            (req.current_skills.map pyLower)
          learning_path := [fallbackStep (skillGaps (pyUnion (jobs.map (fun e => e.1.required_skills)))
            (req.current_skills.map pyLower))]
          estimated_timeline := "0 weeks"
          confidence_score := confidence (req.current_skills.map pyLower)
            (pyUnion (jobs.map (fun e => e.1.required_skills))) } := by
  unfold buildWithJobs
  simp only [hsal, hdec, aggregateTimeline_fallback]

/-- C3 counterexample: the source does not normalize the aggregated
required skills. With known skills [Python] (lower-cased by the code) and
the aggregated required set enumerated as [Python], the source score is 0,
while the claimed normalized-set formula (and the claimed value 1 for
containment under normalization) gives 1. -/
theorem c3_confidence_ignores_required_case :
    confidence (["Python"].map pyLower) ["Python"] = 0 ∧
    specConfidence ["Python"] ["Python"] = 1 ∧
    (0 : ℚ) ≠ 1 := by
  refine ⟨?_, ?_, by norm_num⟩
  · have hl : ["Python"].map pyLower = ["python"] := by decide
    rw [hl]
    norm_num [confidence]
    decide
  · have h : specNormalize ["Python"] = {"python"} := by decide
    simp [specConfidence, h]

/-- C3 (amended): the score the source computes is the fraction of the
aggregated required skills, in their stored raw form, that occur literally
in the lower-cased known set; it lies in [0,1], is 0.0 on an empty
aggregate, and is 1.0 when every stored required skill occurs literally in
the lower-cased known list. -/
theorem c3_confidence_code_formula (knownL required : List String) :
    0 ≤ confidence knownL required ∧ confidence knownL required ≤ 1 ∧
    (required = [] → confidence knownL required = 0) ∧
    (required ≠ [] → (∀ s ∈ required, s ∈ knownL) → confidence knownL required = 1) := by
  refine ⟨?_, ?_, ?_, ?_⟩
  · unfold confidence
    split
    · exact le_refl 0
    · positivity
  · unfold confidence
    split
    · norm_num
    · rename_i h
      have hpos : 0 < required.length := by
        cases required with
        | nil => simp at h
        | cons a t => simp
      rw [div_le_one (by exact_mod_cast hpos)]
      exact_mod_cast List.length_filter_le _ required
  · intro h
    subst h
    rfl
  · intro hne hsub
    unfold confidence
    rw [if_neg (by simpa using hne)]
    rw [List.filter_eq_self.mpr (fun a ha => by simpa using hsub a ha)]
    have hlen : (required.length : ℚ) ≠ 0 := by
      have h0 : required.length ≠ 0 := by simpa [List.length_eq_zero] using hne
      exact_mod_cast h0
    field_simp

/-- C3 witness: the amended formula at concrete inputs, a full literal
overlap scoring 1 and an empty aggregate scoring 0. -/
theorem c3_confidence_witness :
    confidence ["python", "sql"] ["python"] = 1 ∧ confidence ["python"] [] = 0 :=
  ⟨(c3_confidence_code_formula ["python", "sql"] ["python"]).2.2.2 (by decide) (by decide),
   (c3_confidence_code_formula ["python"] []).2.2.1 rfl⟩

/-- C6: for every learning path in which each duration string has at least
one whitespace token (the defined domain of the source aggregation, see
C10 for the empty-token case), the aggregated timeline is rendered from the
sum of the leading-integer-token contributions: below 52 as weeks,
otherwise as the sum divided by 4 (integer division) in months. -/
theorem c6_timeline_formula (steps : List LearningStep)
    (h : ∀ st ∈ steps, pySplit st.estimated_duration ≠ []) :
    aggregateTimeline steps =
      some (if (steps.map (fun st => specLeadContribution st.estimated_duration)).sum < 52
            then toString ((steps.map (fun st => specLeadContribution st.estimated_duration)).sum) ++ " weeks"
            else toString ((steps.map (fun st => specLeadContribution st.estimated_duration)).sum / 4) ++ " months") := by
  unfold aggregateTimeline
  rw [totalDuration_eq_sum steps h]
  rfl

/-- C6 witness: the two examples of the claim, durations 2, 3 and 10 weeks
rendering as 15 weeks, and 30 plus 30 weeks rendering as 15 months. -/
theorem c6_timeline_witness :
    aggregateTimeline
        [{ step := 1, title := "A", description := "", estimated_duration := "2 weeks",
           resources := [], skills_gained := [] },
         { step := 2, title := "B", description := "", estimated_duration := "3 weeks",
           resources := [], skills_gained := [] },
         { step := 3, title := "C", description := "", estimated_duration := "10 weeks",
           resources := [], skills_gained := [] }] = some "15 weeks" ∧
    aggregateTimeline
        [{ step := 1, title := "A", description := "", estimated_duration := "30 weeks",
           resources := [], skills_gained := [] },
         { step := 2, title := "B", description := "", estimated_duration := "30 weeks",
           resources := [], skills_gained := [] }] = some "15 months" := by
  constructor
  · exact (c6_timeline_formula _ (by decide)).trans (by decide)
  · exact (c6_timeline_formula _ (by decide)).trans (by decide)

/-- C10: a learning step whose estimated duration is the empty string makes
the timeline aggregation fail (the indexing of the first split token is out
of bounds), and the whole roadmap build then fails with an internal error
instead of counting the step as zero: here the generator response decodes
to one well-formed step whose duration is empty. -/
theorem c10_empty_duration_fails :
    aggregateTimeline
        [{ step := 1, title := "T", description := "D", estimated_duration := "",
           resources := [], skills_gained := [] }] = none ∧
    buildRoadmap witnessCatalog witnessReq loadsEmptyDuration (GenOutcome.ok "resp") =
      Except.error (RoadmapError.internal "IndexError") :=
  ⟨rfl, rfl⟩

/-- Dropping while a predicate holds skips a prefix on which it holds
everywhere. -/
theorem dropWhile_append_all {p : Char → Bool} {a t : List Char}
    (h : ∀ x ∈ a, p x = true) : List.dropWhile p (a ++ t) = List.dropWhile p t := by
  induction a with
  | nil => rfl
  | cons x xs ih =>
    have hx := h x (List.mem_cons_self x xs)
    rw [List.cons_append, List.dropWhile_cons, if_pos hx]
    exact ih (fun y hy => h y (List.mem_cons_of_mem x hy))

/-- The whole build after a decode failure: retrieval result plugged into
the post-retrieval fallback equation. -/
theorem buildRoadmap_decode_fail (catalog : List (JobPosting × ℚ)) (req : RoadmapRequest)
    (loads : String → Option Json) (text : String) (jobs : List (JobPosting × ℚ)) (sal : ℚ)
    (hret : retrieve catalog req.target_role = Except.ok jobs)
    (hsal : req.target_salary = some sal)
    (hdec : loads (chosenText text) = none) :
    buildRoadmap catalog req loads (GenOutcome.ok text) =
      Except.ok
        { target_role := req.target_role
          current_skills := req.current_skills
          skill_gaps := skillGaps (pyUnion (jobs.map (fun e => e.1.required_skills)))
            (req.current_skills.map pyLower)
          recommended_skills := recommendedSkills (pyUnion (jobs.map (fun e => e.1.preferred_skills)))
            (req.current_skills.map pyLower)
          learning_path := [fallbackStep (skillGaps (pyUnion (jobs.map (fun e => e.1.required_skills)))
            (req.current_skills.map pyLower))]
          estimated_timeline := "0 weeks"
          confidence_score := confidence (req.current_skills.map pyLower)
            (pyUnion (jobs.map (fun e => e.1.required_skills))) } := by
  unfold buildRoadmap
  rw [hret]
  exact buildWithJobs_decode_fail req loads text jobs sal hsal hdec

/-- C7 counterexample: on the response holding two bracketed spans, the
source match runs greedily from the first opening bracket to the last
closing bracket, so the text handed to the decoder is the whole two-span
stretch, not the first balanced span the claim describes. -/
theorem c7_first_balanced_span_cex :
    chosenText "[1] [2]" = "[1] [2]" ∧
    firstBalancedSpanL ("[1] [2]".data) = some ("[1]".data) ∧
    ("[1] [2]" : String) ≠ "[1]" := by
  refine ⟨by decide, by decide, by decide⟩

/-- C7 (amended): the extracted span runs from the first opening bracket to
the last closing bracket of the response (greedy match), so text after the
span that holds further closing brackets does change which span is parsed;
the response is parsed verbatim exactly when no such span exists. -/
theorem c7_greedy_span :
    (∀ a b c : List Char, '[' ∉ a → ']' ∉ c →
        codeSpanL (a ++ ('[' :: (b ++ (']' :: c)))) = some ('[' :: (b ++ [']']))) ∧
    (∀ s : String, codeSpanL s.data = none → chosenText s = s) := by
  constructor
  · intro a b c ha hc
    have ha' : ∀ x ∈ a, (x != '[') = true := by
      intro x hx
      have hne : x ≠ '[' := fun he => ha (he ▸ hx)
      simp [hne]
    have hrest : List.dropWhile (fun x => x != '[') (a ++ ('[' :: (b ++ (']' :: c)))) =
        '[' :: (b ++ (']' :: c)) := by
      rw [dropWhile_append_all ha', List.dropWhile_cons]
      simp
    have hc' : ∀ x ∈ (c.reverse : List Char), (x != ']') = true := by
      intro x hx
      have hxc : x ∈ c := List.mem_reverse.mp hx
      have hne : x ≠ ']' := fun he => hc (he ▸ hxc)
      simp [hne]
    have hrev : ('[' :: (b ++ (']' :: c))).reverse =
        c.reverse ++ (']' :: (b.reverse ++ ['['])) := by
      simp [List.reverse_cons, List.reverse_append, List.append_assoc]
    have hcut : (('[' :: (b ++ (']' :: c))).reverse.dropWhile (fun x => x != ']')).reverse =
        '[' :: (b ++ [']']) := by
      rw [hrev, dropWhile_append_all hc', List.dropWhile_cons]
      simp
    have hspan : codeSpanL (a ++ ('[' :: (b ++ (']' :: c)))) =
        (if ((('[' :: (b ++ (']' :: c))).reverse.dropWhile (fun x => x != ']')).reverse).isEmpty = true
         then none
         else some ((('[' :: (b ++ (']' :: c))).reverse.dropWhile (fun x => x != ']')).reverse)) := by
      unfold codeSpanL
      rw [hrest]
    rw [hspan, hcut]
    rfl
  · intro s hnone
    unfold chosenText
    rw [hnone]

/-- C7 witness: the amended span law at a concrete response with a second
closing bracket after the first balanced span, and the verbatim case on a
bracket-free response. -/
theorem c7_greedy_span_witness :
    codeSpanL (" x ".data ++ ('[' :: ("1] [2".data ++ (']' :: " y".data)))) =
      some ('[' :: ("1] [2".data ++ [']'])) ∧
    chosenText "plain text" = "plain text" :=
  ⟨c7_greedy_span.1 " x ".data "1] [2".data " y".data (by decide) (by decide),
   c7_greedy_span.2 "plain text" (by decide)⟩

/-- C8 counterexample: the gap comprehension applies no sort; it returns
the aggregated required skills in set-iteration order. The enumerations
[b, a] and [a, b] both stand for the same aggregated set, and the output
follows the enumeration: for the first it is [b, a], which is not sorted
lexicographically by normalized form, and the two enumerations give
different sequences, so the order is not determined by the inputs as
sets. -/
theorem c8_gap_order_unsorted :
    skillGaps ["b", "a"] ["z"] = ["b", "a"] ∧
    isSortedByNorm ["b", "a"] = false ∧
    skillGaps ["a", "b"] ["z"] = ["a", "b"] ∧
    (["a", "b"] : List String) ≠ ["b", "a"] := by
  refine ⟨by decide, by decide, by decide, by decide⟩

/-- C8 (amended): the gap and recommended outputs are deterministic as
sets: enumerating the aggregated required or preferred set in any order
yields the same set of survivors; only the sequence order follows the
unspecified iteration order. -/
theorem c8_gap_sets_enum_invariant (e1 e2 kL : List String)
    (h : e1.toFinset = e2.toFinset) :
    (skillGaps e1 kL).toFinset = (skillGaps e2 kL).toFinset ∧
    (recommendedSkills e1 kL).toFinset = (recommendedSkills e2 kL).toFinset := by
  have hm : ∀ x : String, x ∈ e1 ↔ x ∈ e2 := by
    intro x
    rw [← List.mem_toFinset, h, List.mem_toFinset]
  constructor
  · ext x
    simp only [List.mem_toFinset, skillGaps, List.mem_filter, hm]
  · ext x
    simp only [List.mem_toFinset, recommendedSkills, List.mem_filter, hm]

/-- C8 witness: the set-level determinism at the two concrete enumerations
of the counterexample. -/
theorem c8_gap_sets_witness :
    (skillGaps ["a", "b"] ["z"]).toFinset = (skillGaps ["b", "a"] ["z"]).toFinset ∧
    (recommendedSkills ["a", "b"] ["z"]).toFinset = (recommendedSkills ["b", "a"] ["z"]).toFinset :=
  c8_gap_sets_enum_invariant ["a", "b"] ["b", "a"] ["z"] (by decide)

/-- C9 counterexample: the gap keeps the raw stored casing, so its union
with the normalized intersection is not the normalized required set: with
required enumerated as [Python] and known [java], the gap is the raw
[Python], and the claimed union equation fails against the normalized
required set, which holds python. -/
theorem c9_union_cex :
    ¬ ((skillGaps ["Python"] (["java"].map pyLower)).toFinset ∪
        (specNormalize ["Python"] ∩ specNormalize ["java"]) = specNormalize ["Python"]) := by
  decide

/-- C9 (amended): the gap is disjoint from the lower-cased known set as the
claim states; the union law holds once the gap is itself lower-cased: the
lower-image of the gap together with the intersection of the lower-cased
required and known sets is exactly the lower-cased required set. -/
theorem c9_gap_disjoint_union (required known : List String)
    (h1 : required ≠ []) (h2 : known ≠ []) :
    (∀ g ∈ skillGaps required (known.map pyLower), g ∉ known.map pyLower) ∧
    ((skillGaps required (known.map pyLower)).map pyLower).toFinset ∪
        ((required.map pyLower).toFinset ∩ (known.map pyLower).toFinset) =
      (required.map pyLower).toFinset := by
  constructor
  · intro g hg hgk
    have hfix : pyLower g = g := pyLower_fixed_of_mem hgk
    have hcond := (List.mem_filter.mp hg).2
    rw [hfix] at hcond
    have hnot : g ∉ known.map pyLower := by simpa using hcond
    exact hnot hgk
  · ext x
    simp only [Finset.mem_union, Finset.mem_inter, List.mem_toFinset, List.mem_map]
    constructor
    · rintro (⟨g, hg, rfl⟩ | ⟨⟨r, hr, rfl⟩, _⟩)
      · obtain ⟨hgr, _⟩ := List.mem_filter.mp hg
        exact ⟨g, hgr, rfl⟩
      · exact ⟨r, hr, rfl⟩
    · rintro ⟨r, hr, rfl⟩
      by_cases hk : pyLower r ∈ known.map pyLower
      · right
        obtain ⟨k, hkk, hke⟩ := List.mem_map.mp hk
        exact ⟨⟨r, hr, rfl⟩, ⟨k, hkk, hke⟩⟩
      · left
        refine ⟨r, List.mem_filter.mpr ⟨hr, ?_⟩, rfl⟩
        simpa using hk

/-- C9 witness: the amended disjointness and union law at the concrete
enumeration [Python] against known [java]. -/
theorem c9_gap_disjoint_union_witness :
    (∀ g ∈ skillGaps ["Python"] (["java"].map pyLower), g ∉ ["java"].map pyLower) ∧
    ((skillGaps ["Python"] (["java"].map pyLower)).map pyLower).toFinset ∪
        ((["Python"].map pyLower).toFinset ∩ (["java"].map pyLower).toFinset) =
      (["Python"].map pyLower).toFinset :=
  c9_gap_disjoint_union ["Python"] ["java"] (by decide) (by decide)

/-- C2 counterexample: a generator response decoding to one well-formed
step object labelled step 7 reaches the final roadmap with ordinal 7, not
with the position-based ordinal 1 the claim requires: the route passes the
decoded step field through unchanged. -/
theorem c2_step_not_renumbered :
    (buildRoadmap witnessCatalog witnessReq loadsStep7 (GenOutcome.ok "resp")).map
        (fun r => r.learning_path.map (fun st => st.step)) = Except.ok [7] ∧
    (7 : Int) ≠ 1 :=
  ⟨rfl, by decide⟩

/-- C2 (amended): the learning path preserves array order and takes each
ordinal verbatim from the step field of the corresponding decoded object,
which is a required field rather than an ignored one; no renumbering to
1..N happens. -/
theorem c2_step_fields_verbatim (items : List Json) (steps : List LearningStep)
    (h : stepsOfJson (Json.arr items) = Except.ok steps) :
    List.Forall₂
      (fun it st => ∃ fs, it = Json.obj fs ∧ List.lookup "step" fs = some (Json.num st.step))
      items steps :=
  stepsOfList_step_fields h

/-- C2 witness: the verbatim step law at the concrete one-object array
labelled step 7. -/
theorem c2_step_fields_witness :
    List.Forall₂
      (fun (it : Json) (st : LearningStep) =>
        ∃ fs, it = Json.obj fs ∧ List.lookup "step" fs = some (Json.num st.step))
      [Json.obj stepObj7]
      [({ step := 7, title := "Learn X", description := "D", estimated_duration := "2 weeks",
          resources := [], skills_gained := [] } : LearningStep)] :=
  c2_step_fields_verbatim [Json.obj stepObj7] _ rfl

/-- C1 counterexample: retrieval succeeds on this catalog, the generator
returns text whose decoded array holds a step object lacking the required
title field, and the build fails hard with an internal error (the route
catches only JSONDecodeError, not the pydantic validation failure),
contradicting the claim that such responses degrade to the fallback
roadmap. -/
theorem c1_validation_error_hard_failure :
    retrieve witnessCatalog "Engineer" = Except.ok [(witnessJob, 0)] ∧
    buildRoadmap witnessCatalog witnessReq loadsMissingTitle (GenOutcome.ok "resp") =
      Except.error (RoadmapError.internal "ValidationError: title") :=
  ⟨rfl, rfl⟩

/-- C1 (amended): once retrieval succeeds and the request carries a target
salary, a generator response whose chosen text fails JSON decoding never
fails the call: the build returns a complete roadmap whose learning path is
the deterministic fallback step. Generator exceptions and step objects
missing required fields, by contrast, fail the call with an internal
error. -/
theorem c1_decode_failure_degrades (catalog : List (JobPosting × ℚ)) (req : RoadmapRequest)
    (loads : String → Option Json) (text : String) (jobs : List (JobPosting × ℚ)) (sal : ℚ)
    (hret : retrieve catalog req.target_role = Except.ok jobs)
    (hsal : req.target_salary = some sal)
    (hdec : loads (chosenText text) = none) :
    ∃ r : Roadmap, buildRoadmap catalog req loads (GenOutcome.ok text) = Except.ok r ∧
      r.learning_path = [fallbackStep r.skill_gaps] :=
  ⟨_, buildRoadmap_decode_fail catalog req loads text jobs sal hret hsal hdec, rfl⟩

/-- C1 witness: the graceful decode-failure path at a concrete catalog,
request and undecodable response. -/
theorem c1_decode_failure_witness :
    ∃ r : Roadmap,
      buildRoadmap witnessCatalog witnessReq loadsNoneW (GenOutcome.ok "no json here") =
        Except.ok r ∧
      r.learning_path = [fallbackStep r.skill_gaps] :=
  c1_decode_failure_degrades witnessCatalog witnessReq loadsNoneW "no json here"
    [(witnessJob, 0)] 100 rfl rfl rfl

/-- C4 counterexample: a generator error (an error or empty response, which
the claim sources count as a parse failure) does not produce any roadmap at
all, let alone the fallback step: the build fails hard because the
generator call sits outside the parse try block. -/
theorem c4_generator_failure_no_fallback :
    retrieve witnessCatalog "Engineer" = Except.ok [(witnessJob, 0)] ∧
    buildRoadmap witnessCatalog witnessReq loadsNoneW GenOutcome.failure =
      Except.error (RoadmapError.internal "GenerationFailed") :=
  ⟨rfl, rfl⟩

/-- C4 (amended): for every request with a target salary whose retrieval
succeeds and whose generator text fails JSON decoding, the resulting
roadmap has exactly one learning step titled Foundation Building with
duration 1-2 months, the generic resource placeholders, and skills_gained
equal to the first three computed gap skills. -/
theorem c4_fallback_content (catalog : List (JobPosting × ℚ)) (req : RoadmapRequest)
    (loads : String → Option Json) (text : String) (jobs : List (JobPosting × ℚ)) (sal : ℚ)
    (hret : retrieve catalog req.target_role = Except.ok jobs)
    (hsal : req.target_salary = some sal)
    (hdec : loads (chosenText text) = none) :
    ∃ r : Roadmap, buildRoadmap catalog req loads (GenOutcome.ok text) = Except.ok r ∧
      r.learning_path =
        [{ step := 1
           title := "Foundation Building"
           description := "Start by learning the core skills: " ++ joinComma (r.skill_gaps.take 3)
           estimated_duration := "1-2 months"
           resources := ["Online courses", "Documentation", "Practice projects"]
           skills_gained := r.skill_gaps.take 3 }] :=
  ⟨_, buildRoadmap_decode_fail catalog req loads text jobs sal hret hsal hdec, rfl⟩

/-- C4 witness: the fallback content law at a concrete catalog, request and
undecodable response. -/
theorem c4_fallback_content_witness :
    ∃ r : Roadmap,
      buildRoadmap witnessCatalog witnessReq loadsNoneW (GenOutcome.ok "not parseable") =
        Except.ok r ∧
      r.learning_path =
        [{ step := 1
           title := "Foundation Building"
           description := "Start by learning the core skills: " ++ joinComma (r.skill_gaps.take 3)
           estimated_duration := "1-2 months"
           resources := ["Online courses", "Documentation", "Practice projects"]
           skills_gained := r.skill_gaps.take 3 }] :=
  c4_fallback_content witnessCatalog witnessReq loadsNoneW "not parseable"
    [(witnessJob, 0)] 100 rfl rfl rfl

/-- The two-tier retrieval written with its conditionals exposed. -/
theorem retrieve_eq (catalog : List (JobPosting × ℚ)) (role : String) :
    retrieve catalog role =
      if ((sortByDistance (catalog.filter (fun e => titleMatches role e.1.title))).take 10).isEmpty
      then (if ((sortByDistance catalog).take 5).isEmpty
            then Except.error RoadmapError.noMatchingEntries
            else Except.ok ((sortByDistance catalog).take 5))
      else Except.ok ((sortByDistance (catalog.filter (fun e => titleMatches role e.1.title))).take 10) :=
  rfl

/-- C5 counterexample: the first tier filters by the SQL ILIKE pattern, not
by substring containment. With target role A_I, the underscore is a
single-character wildcard, so the entry titled ABI passes the ILIKE filter
even though no title contains A_I: the source returns the filtered tier
holding only that entry, while the claimed substring reading would find the
filtered tier empty and rank the whole catalog by distance instead. -/
theorem c5_ilike_not_substring :
    retrieve [(jobABI, 1), (jobZed, 0)] "A_I" = Except.ok [(jobABI, 1)] ∧
    retrieveSpec [(jobABI, 1), (jobZed, 0)] "A_I" = Except.ok [(jobZed, 0), (jobABI, 1)] ∧
    titleMatches "A_I" "ABI" = true ∧
    containsCI "A_I" "ABI" = false ∧
    ([(jobABI, 1)] : List (JobPosting × ℚ)) ≠ [(jobZed, 0), (jobABI, 1)] := by
  refine ⟨by rfl, by rfl, by decide, by decide, by decide⟩

/-- C5 (amended): retrieval first ranks only entries whose title matches
the ILIKE pattern built from the target role (which is case-insensitive
substring containment only when the role holds no percent or underscore
wildcard); the unfiltered whole-catalog tier is ranked exactly when that
filtered tier returns zero entries, and the call fails with the not-found
error exactly when the catalog itself is empty, with no merge of the two
tiers. -/
theorem c5_two_tier (catalog : List (JobPosting × ℚ)) (role : String) :
    ((∃ e ∈ catalog, titleMatches role e.1.title = true) →
      ∃ jobs, retrieve catalog role = Except.ok jobs ∧ jobs ≠ [] ∧
        ∀ e ∈ jobs, titleMatches role e.1.title = true) ∧
    ((∀ e ∈ catalog, titleMatches role e.1.title = false) → catalog ≠ [] →
      ∃ jobs, retrieve catalog role = Except.ok jobs ∧ jobs ≠ []) ∧
    (retrieve catalog role = Except.error RoadmapError.noMatchingEntries ↔ catalog = []) := by
  refine ⟨?_, ?_, ?_, ?_⟩
  · intro h
    have h1 := tier1_ne_nil h
    refine ⟨(sortByDistance (catalog.filter (fun e => titleMatches role e.1.title))).take 10,
      ?_, ?_, ?_⟩
    · rw [retrieve_eq, if_neg (by simp [h1])]
    · intro hn
      rw [hn] at h1
      simp at h1
    · intro e he
      exact tier1_members he
  · intro hnone hcat
    have h0 := tier1_nil hnone
    have h2 : ((sortByDistance catalog).take 5) ≠ [] := by
      cases hsc : sortByDistance catalog with
      | nil => exact absurd (sortByDistance_eq_nil_iff.mp hsc) hcat
      | cons a t => simp [List.take]
    refine ⟨(sortByDistance catalog).take 5, ?_, h2⟩
    rw [retrieve_eq, if_pos (by simp [h0]), if_neg (by simpa using h2)]
  · intro herr
    by_contra hcat
    have h2 : ((sortByDistance catalog).take 5) ≠ [] := by
      cases hsc : sortByDistance catalog with
      | nil => exact absurd (sortByDistance_eq_nil_iff.mp hsc) hcat
      | cons a t => simp [List.take]
    rw [retrieve_eq] at herr
    by_cases h1 : ((sortByDistance (catalog.filter (fun e => titleMatches role e.1.title))).take 10).isEmpty = true
    · rw [if_pos h1, if_neg (by simpa using h2)] at herr
      cases herr
    · rw [if_neg h1] at herr
      cases herr
  · intro hcat
    subst hcat
    rfl

/-- C5 witness: with a catalog whose single entry matches the role pattern,
the filtered tier is returned, nonempty, and every returned entry passes
the ILIKE title filter. -/
theorem c5_two_tier_witness :
    ∃ jobs, retrieve witnessCatalog "Engineer" = Except.ok jobs ∧ jobs ≠ [] ∧
      ∀ e ∈ jobs, titleMatches "Engineer" e.1.title = true :=
  (c5_two_tier witnessCatalog "Engineer").1 ⟨(witnessJob, 0), by decide, by decide⟩
